import Mathlib

/-!
Verification of the Vitacura fleet simulation engine
(`simulation_engine.py`): entity state machine, tick loop, epoch reset,
snapshot builder, status labels, and the subscriber registry/broadcast.

Coordinates are carried as `Int × Int`: the engine never computes with
latitude/longitude, it only copies values out of the configured routes,
so any carrier type with decidable equality is faithful.  Modes and
phases are kept as the strings the source dispatches on.  The four
timeline markers come from the scenario configuration file and are kept
as parameters (`Schedule`).
-/

namespace Vita360

/-- The timeline markers loaded from the scenario configuration
(`SUSPECT_SPAWN_TICK`, `INTERCEPT_START_TICK`, `CAPTURE_TICK`,
`RESET_TICK`); in the shipped configuration these are 40, 90, 130, 240. -/
structure Schedule where
  suspectSpawnTick : Nat
  interceptStartTick : Nat
  captureTick : Nat
  resetTick : Nat
deriving DecidableEq

/-- One entry of `VEHICLES_DEF`: a vehicle definition from the scenario
file.  Fields that a given mode does not use are simply ignored, the way
unused dict keys are in the source.  `spawn_tick := none` models a
definition without a `"spawn_tick"` key (`vdef.get("spawn_tick",
SUSPECT_SPAWN_TICK)`). -/
structure VehicleDef where
  id : String
  vtype : String
  mode : String := "fixed"
  area : String := ""
  speed_kmh : Int := 0
  hold_position : Int × Int := (0, 0)
  patrol_route : List (Int × Int) := []
  intercept_route : List (Int × Int) := []
  route : List (Int × Int) := []
  state_labels : List (String × String) := []
  spawn_tick : Option Nat := none
deriving DecidableEq

/-- The per-vehicle state dict built by `_init_vehicle_state` and
mutated by `_advance`.  Keys a mode never stores are carried with inert
default values (the source simply leaves them absent). -/
structure VehicleState where
  id : String
  vtype : String
  mode : String
  area : String
  speed_kmh : Int
  route_index : Nat
  phase : String
  visible : Bool
  lat : Int
  lng : Int
  patrol_route : List (Int × Int)
  intercept_route : List (Int × Int)
  route : List (Int × Int)
  hold_position : Int × Int
  state_labels : List (String × String)
  spawn_tick : Nat
deriving DecidableEq

/-- The coordinate pair a state currently occupies. -/
def pos (s : VehicleState) : Int × Int := (s.lat, s.lng)

/-- `_init_vehicle_state(vdef)`. -/
def _init_vehicle_state (sched : Schedule) (vdef : VehicleDef) : VehicleState :=
  let base : VehicleState :=
    { id := vdef.id
      vtype := vdef.vtype
      mode := vdef.mode
      area := vdef.area
      speed_kmh := vdef.speed_kmh
      route_index := 0
      phase := "patrol"
      visible := true
      lat := 0
      lng := 0
      patrol_route := []
      intercept_route := []
      route := []
      hold_position := (0, 0)
      state_labels := []
      spawn_tick := 0 }
  if vdef.mode = "fixed" then
    { base with
      lat := vdef.hold_position.1
      lng := vdef.hold_position.2
      phase := "hold" }
  else if vdef.mode = "loop" then
    let r := vdef.patrol_route
    { base with
      patrol_route := r
      lat := (r.getD 0 (0, 0)).1
      lng := (r.getD 0 (0, 0)).2
      phase := "patrol" }
  else if vdef.mode = "loop_then_intercept_then_hold" then
    let r := vdef.patrol_route
    { base with
      patrol_route := vdef.patrol_route
      intercept_route := vdef.intercept_route
      hold_position := vdef.hold_position
      state_labels := vdef.state_labels
      lat := (r.getD 0 (0, 0)).1
      lng := (r.getD 0 (0, 0)).2
      phase := "patrol" }
  else if vdef.mode = "spawn_then_route_then_hold" then
    { base with
      route := vdef.route
      hold_position := vdef.hold_position
      state_labels := vdef.state_labels
      spawn_tick := vdef.spawn_tick.getD sched.suspectSpawnTick
      visible := false
      phase := "hidden"
      lat := (vdef.route.getD 0 (0, 0)).1
      lng := (vdef.route.getD 0 (0, 0)).2 }
  else base

/-- The per-vehicle body of the `for vid, state in vehicles_state.items()`
loop inside `_advance`, at the already-incremented tick value. -/
def advanceVehicle (sched : Schedule) (tick : Nat) (s : VehicleState) : VehicleState :=
  if s.mode = "fixed" then
    { s with phase := "hold" }
  else if s.mode = "loop" then
    let route := s.patrol_route
    let idx := s.route_index
    { s with
      lat := (route.getD idx (0, 0)).1
      lng := (route.getD idx (0, 0)).2
      route_index := (idx + 1) % route.length
      phase := "patrol" }
  else if s.mode = "loop_then_intercept_then_hold" then
    if tick < sched.interceptStartTick then
      let route := s.patrol_route
      let idx := s.route_index
      { s with
        lat := (route.getD idx (0, 0)).1
        lng := (route.getD idx (0, 0)).2
        route_index := (idx + 1) % route.length
        phase := "patrol" }
    else if tick < sched.captureTick then
      let iRoute := s.intercept_route
      let s1 :=
        if s.phase ≠ "intercept" then { s with route_index := 0, phase := "intercept" } else s
      let idx := s1.route_index
      let s2 :=
        { s1 with lat := (iRoute.getD idx (0, 0)).1, lng := (iRoute.getD idx (0, 0)).2 }
      if idx < iRoute.length - 1 then { s2 with route_index := idx + 1 } else s2
    else
      { s with lat := s.hold_position.1, lng := s.hold_position.2, phase := "hold" }
  else if s.mode = "spawn_then_route_then_hold" then
    if tick < s.spawn_tick then
      { s with visible := false, phase := "hidden" }
    else if tick < sched.captureTick then
      let route := s.route
      let s1 := { s with visible := true }
      let s2 :=
        if s1.phase = "hidden" then { s1 with route_index := 0, phase := "moving" } else s1
      let idx := s2.route_index
      let s3 :=
        { s2 with lat := (route.getD idx (0, 0)).1, lng := (route.getD idx (0, 0)).2 }
      if idx < route.length - 1 then { s3 with route_index := idx + 1 } else s3
    else
      { s with
        lat := s.hold_position.1
        lng := s.hold_position.2
        visible := true
        phase := "hold" }
  else s

/-- The whole-world state: the module-level `tick` counter together with
`vehicles_state` (a dict iterated in insertion order, hence a list). -/
structure World where
  tick : Nat
  vehicles : List VehicleState
deriving DecidableEq

/-- `_reset()`: tick back to zero, every vehicle reinitialized from its
definition. -/
def _reset (sched : Schedule) (defs : List VehicleDef) : World :=
  { tick := 0, vehicles := defs.map (_init_vehicle_state sched) }

/-- `_advance()`: increment the tick; on reaching `RESET_TICK`
reinitialize the world and return, otherwise advance every vehicle at
the new tick. -/
def _advance (sched : Schedule) (defs : List VehicleDef) (w : World) : World :=
  let t := w.tick + 1
  if t ≥ sched.resetTick then _reset sched defs
  else { tick := t, vehicles := w.vehicles.map (advanceVehicle sched t) }

/-- The world after `n` calls of `_advance` starting from the initial
module-level `_reset()` call. -/
def worldAt (sched : Schedule) (defs : List VehicleDef) : Nat → World
  | 0 => _reset sched defs
  | n + 1 => _advance sched defs (worldAt sched defs n)

/-- The state of one vehicle after `n` ticks of an epoch: its
construction-time state at tick 0, then one `advanceVehicle` step per
tick at the post-increment tick value. -/
def vState (sched : Schedule) (vd : VehicleDef) : Nat → VehicleState
  | 0 => _init_vehicle_state sched vd
  | t + 1 => advanceVehicle sched (t + 1) (vState sched vd t)

/-- `_status_label(state)`: the custom `state_labels` entry for the
current phase when present, otherwise the fixed default mapping with the
`type == "patrol"` split on `hold`, falling back to the raw phase name
(`mapping.get(phase, phase)`). -/
def _status_label (s : VehicleState) : String :=
  match s.state_labels.lookup s.phase with
  | some v => v
  | none =>
    let mapping : List (String × String) :=
      [("patrol", "patrullando"),
       ("intercept", "acudiendo"),
       ("hold", if s.vtype = "patrol" then "bloqueando" else "neutralizado"),
       ("hidden", "oculto"),
       ("moving", "en_movimiento"),
       ("detenido", "detenido")]
    (mapping.lookup s.phase).getD s.phase

/-- One element of the `visible_vehicles` list of the payload. -/
structure VehicleView where
  id : String
  vtype : String
  lat : Int
  lng : Int
  status : String
  speed_kmh : Int
  area : String
  phase : String
deriving DecidableEq

/-- The dict appended for one visible vehicle in `_build_payload`. -/
def viewOf (s : VehicleState) : VehicleView :=
  { id := s.id
    vtype := s.vtype
    lat := s.lat
    lng := s.lng
    status := _status_label s
    speed_kmh := s.speed_kmh
    area := s.area
    phase := s.phase }

/-- The snapshot `{"tick": tick, "vehicles": visible_vehicles}`. -/
structure Payload where
  tick : Nat
  vehicles : List VehicleView
deriving DecidableEq

/-- `_build_payload()`: skip states with `visible` false, project the
rest. -/
def _build_payload (w : World) : Payload :=
  { tick := w.tick
    vehicles := (w.vehicles.filter (fun s => s.visible)).map viewOf }

/-- `get_current_state()`: the HTTP polling fallback, a plain call of
`_build_payload` on the current world. -/
def get_current_state (w : World) : Payload := _build_payload w

/-! Subscriber registry.  A live WebSocket handle is opaque; `Nat` is a
faithful carrier for set membership.  `_ws_clients` is a Python set. -/

/-- `register_ws(ws)`: `_ws_clients.add(ws)`. -/
def register_ws (clients : Finset Nat) (ws : Nat) : Finset Nat := insert ws clients

/-- `unregister_ws(ws)`: `_ws_clients.discard(ws)`. -/
def unregister_ws (clients : Finset Nat) (ws : Nat) : Finset Nat := clients.erase ws

/-- The broadcast pass of `_simulation_loop`: every registered handle is
attempted; `sendOk ws = false` models `ws.send_text` raising.  Returns
the set of handles that received the payload and the registry after
`_ws_clients.difference_update(dead)`. -/
def broadcastPass (sendOk : Nat → Bool) (clients : Finset Nat) : Finset Nat × Finset Nat :=
  let dead := clients.filter (fun ws => ¬ sendOk ws)
  (clients.filter (fun ws => sendOk ws), clients \ dead)

/-- The observable outcome of one iteration of `_simulation_loop`. -/
structure TickResult where
  world : World
  payload : Payload
  delivered : Finset Nat
  clients : Finset Nat
deriving DecidableEq

/-- One iteration of the `while True` body of `_simulation_loop` (after
the sleep): `_advance()`, `_build_payload()`, the send loop over
`_ws_clients` collecting `dead`, then `difference_update(dead)`. -/
def loopIteration (sched : Schedule) (defs : List VehicleDef) (sendOk : Nat → Bool)
    (w : World) (clients : Finset Nat) : TickResult :=
  let w1 := _advance sched defs w
  let payload := _build_payload w1
  let pass := broadcastPass sendOk clients
  { world := w1, payload := payload, delivered := pass.1, clients := pass.2 }

/-! Helper lemmas: fields `advanceVehicle` never writes. -/

lemma adv_mode (sched : Schedule) (t : Nat) (s : VehicleState) :
    (advanceVehicle sched t s).mode = s.mode := by
  unfold advanceVehicle
  dsimp only
  repeat' split <;> try rfl

lemma adv_patrol_route (sched : Schedule) (t : Nat) (s : VehicleState) :
    (advanceVehicle sched t s).patrol_route = s.patrol_route := by
  unfold advanceVehicle
  dsimp only
  repeat' split <;> try rfl

lemma adv_intercept_route (sched : Schedule) (t : Nat) (s : VehicleState) :
    (advanceVehicle sched t s).intercept_route = s.intercept_route := by
  unfold advanceVehicle
  dsimp only
  repeat' split <;> try rfl

lemma adv_route (sched : Schedule) (t : Nat) (s : VehicleState) :
    (advanceVehicle sched t s).route = s.route := by
  unfold advanceVehicle
  dsimp only
  repeat' split <;> try rfl

lemma adv_hold_position (sched : Schedule) (t : Nat) (s : VehicleState) :
    (advanceVehicle sched t s).hold_position = s.hold_position := by
  unfold advanceVehicle
  dsimp only
  repeat' split <;> try rfl

lemma adv_spawn_tick (sched : Schedule) (t : Nat) (s : VehicleState) :
    (advanceVehicle sched t s).spawn_tick = s.spawn_tick := by
  unfold advanceVehicle
  dsimp only
  repeat' split <;> try rfl

/-- The stable fields of a vehicle state along a whole epoch. -/
lemma vState_stable (sched : Schedule) (vd : VehicleDef) (t : Nat) :
    (vState sched vd t).mode = (_init_vehicle_state sched vd).mode ∧
    (vState sched vd t).patrol_route = (_init_vehicle_state sched vd).patrol_route ∧
    (vState sched vd t).intercept_route = (_init_vehicle_state sched vd).intercept_route ∧
    (vState sched vd t).route = (_init_vehicle_state sched vd).route ∧
    (vState sched vd t).hold_position = (_init_vehicle_state sched vd).hold_position ∧
    (vState sched vd t).spawn_tick = (_init_vehicle_state sched vd).spawn_tick := by
  induction t with
  | zero => exact ⟨rfl, rfl, rfl, rfl, rfl, rfl⟩
  | succ t ih =>
    obtain ⟨h1, h2, h3, h4, h5, h6⟩ := ih
    refine ⟨?_, ?_, ?_, ?_, ?_, ?_⟩ <;>
      simp [vState, adv_mode, adv_patrol_route, adv_intercept_route, adv_route,
        adv_hold_position, adv_spawn_tick, h1, h2, h3, h4, h5, h6]

/-! Helper lemmas: one reduction per branch of `advanceVehicle`. -/

lemma adv_loop (sched : Schedule) (t : Nat) (s : VehicleState) (h : s.mode = "loop") :
    advanceVehicle sched t s =
      { s with
        lat := (s.patrol_route.getD s.route_index (0, 0)).1
        lng := (s.patrol_route.getD s.route_index (0, 0)).2
        route_index := (s.route_index + 1) % s.patrol_route.length
        phase := "patrol" } := by
  simp [advanceVehicle, h]

lemma adv_li_patrol (sched : Schedule) (t : Nat) (s : VehicleState)
    (h : s.mode = "loop_then_intercept_then_hold") (ht : t < sched.interceptStartTick) :
    advanceVehicle sched t s =
      { s with
        lat := (s.patrol_route.getD s.route_index (0, 0)).1
        lng := (s.patrol_route.getD s.route_index (0, 0)).2
        route_index := (s.route_index + 1) % s.patrol_route.length
        phase := "patrol" } := by
  simp [advanceVehicle, h, ht]

lemma adv_li_intercept_enter (sched : Schedule) (t : Nat) (s : VehicleState)
    (h : s.mode = "loop_then_intercept_then_hold")
    (h1 : ¬ t < sched.interceptStartTick) (h2 : t < sched.captureTick)
    (hph : s.phase ≠ "intercept") :
    advanceVehicle sched t s =
      { s with
        lat := (s.intercept_route.getD 0 (0, 0)).1
        lng := (s.intercept_route.getD 0 (0, 0)).2
        route_index := if 0 < s.intercept_route.length - 1 then 1 else 0
        phase := "intercept" } := by
  simp [advanceVehicle, h, h1, h2, hph]
  split <;> simp [*]

lemma adv_li_intercept_stay (sched : Schedule) (t : Nat) (s : VehicleState)
    (h : s.mode = "loop_then_intercept_then_hold")
    (h1 : ¬ t < sched.interceptStartTick) (h2 : t < sched.captureTick)
    (hph : s.phase = "intercept") :
    advanceVehicle sched t s =
      { s with
        lat := (s.intercept_route.getD s.route_index (0, 0)).1
        lng := (s.intercept_route.getD s.route_index (0, 0)).2
        route_index :=
          if s.route_index < s.intercept_route.length - 1 then s.route_index + 1
          else s.route_index } := by
  simp [advanceVehicle, h, h1, h2, hph]
  split <;> simp [*]

lemma adv_li_hold (sched : Schedule) (t : Nat) (s : VehicleState)
    (h : s.mode = "loop_then_intercept_then_hold")
    (h1 : ¬ t < sched.interceptStartTick) (h2 : ¬ t < sched.captureTick) :
    advanceVehicle sched t s =
      { s with
        lat := s.hold_position.1
        lng := s.hold_position.2
        phase := "hold" } := by
  simp [advanceVehicle, h, h1, h2]

lemma adv_sp_hidden (sched : Schedule) (t : Nat) (s : VehicleState)
    (h : s.mode = "spawn_then_route_then_hold") (ht : t < s.spawn_tick) :
    advanceVehicle sched t s = { s with visible := false, phase := "hidden" } := by
  simp [advanceVehicle, h, ht]

lemma adv_sp_move_enter (sched : Schedule) (t : Nat) (s : VehicleState)
    (h : s.mode = "spawn_then_route_then_hold")
    (h1 : ¬ t < s.spawn_tick) (h2 : t < sched.captureTick) (hph : s.phase = "hidden") :
    advanceVehicle sched t s =
      { s with
        visible := true
        lat := (s.route.getD 0 (0, 0)).1
        lng := (s.route.getD 0 (0, 0)).2
        route_index := if 0 < s.route.length - 1 then 1 else 0
        phase := "moving" } := by
  simp [advanceVehicle, h, h1, h2, hph]
  split <;> simp [*]

lemma adv_sp_move_stay (sched : Schedule) (t : Nat) (s : VehicleState)
    (h : s.mode = "spawn_then_route_then_hold")
    (h1 : ¬ t < s.spawn_tick) (h2 : t < sched.captureTick) (hph : s.phase ≠ "hidden") :
    advanceVehicle sched t s =
      { s with
        visible := true
        lat := (s.route.getD s.route_index (0, 0)).1
        lng := (s.route.getD s.route_index (0, 0)).2
        route_index :=
          if s.route_index < s.route.length - 1 then s.route_index + 1
          else s.route_index } := by
  simp [advanceVehicle, h, h1, h2, hph]
  split <;> simp [*]

lemma adv_sp_hold (sched : Schedule) (t : Nat) (s : VehicleState)
    (h : s.mode = "spawn_then_route_then_hold")
    (h1 : ¬ t < s.spawn_tick) (h2 : ¬ t < sched.captureTick) :
    advanceVehicle sched t s =
      { s with
        lat := s.hold_position.1
        lng := s.hold_position.2
        visible := true
        phase := "hold" } := by
  simp [advanceVehicle, h, h1, h2]

/-! Helper lemmas: the initial state of each mode. -/

lemma init_loop (sched : Schedule) (vd : VehicleDef) (h : vd.mode = "loop") :
    (_init_vehicle_state sched vd).mode = "loop" ∧
    (_init_vehicle_state sched vd).patrol_route = vd.patrol_route ∧
    (_init_vehicle_state sched vd).route_index = 0 ∧
    (_init_vehicle_state sched vd).phase = "patrol" ∧
    pos (_init_vehicle_state sched vd) = vd.patrol_route.getD 0 (0, 0) := by
  simp [_init_vehicle_state, h, pos]

lemma init_li (sched : Schedule) (vd : VehicleDef)
    (h : vd.mode = "loop_then_intercept_then_hold") :
    (_init_vehicle_state sched vd).mode = "loop_then_intercept_then_hold" ∧
    (_init_vehicle_state sched vd).patrol_route = vd.patrol_route ∧
    (_init_vehicle_state sched vd).intercept_route = vd.intercept_route ∧
    (_init_vehicle_state sched vd).hold_position = vd.hold_position ∧
    (_init_vehicle_state sched vd).route_index = 0 ∧
    (_init_vehicle_state sched vd).phase = "patrol" := by
  simp [_init_vehicle_state, h]

lemma init_sp (sched : Schedule) (vd : VehicleDef)
    (h : vd.mode = "spawn_then_route_then_hold") :
    (_init_vehicle_state sched vd).mode = "spawn_then_route_then_hold" ∧
    (_init_vehicle_state sched vd).route = vd.route ∧
    (_init_vehicle_state sched vd).hold_position = vd.hold_position ∧
    (_init_vehicle_state sched vd).spawn_tick = vd.spawn_tick.getD sched.suspectSpawnTick ∧
    (_init_vehicle_state sched vd).route_index = 0 ∧
    (_init_vehicle_state sched vd).phase = "hidden" ∧
    (_init_vehicle_state sched vd).visible = false := by
  simp [_init_vehicle_state, h]

/-! Helper lemmas: the `loop` trajectory. -/

lemma loop_index (sched : Schedule) (vd : VehicleDef) (h : vd.mode = "loop") (t : Nat) :
    (vState sched vd t).route_index = t % vd.patrol_route.length := by
  induction t with
  | zero =>
    simp [vState, (init_loop sched vd h).2.2.1]
  | succ t ih =>
    have hm : (vState sched vd t).mode = "loop" :=
      (vState_stable sched vd t).1.trans (init_loop sched vd h).1
    have hr : (vState sched vd t).patrol_route = vd.patrol_route :=
      (vState_stable sched vd t).2.1.trans (init_loop sched vd h).2.1
    show (advanceVehicle sched (t + 1) (vState sched vd t)).route_index = _
    rw [adv_loop sched (t + 1) _ hm]
    simp only [hr, ih]
    exact Nat.mod_add_mod t vd.patrol_route.length 1 ▸ rfl

lemma loop_pos_succ (sched : Schedule) (vd : VehicleDef) (h : vd.mode = "loop") (t : Nat) :
    pos (vState sched vd (t + 1)) = vd.patrol_route.getD (t % vd.patrol_route.length) (0, 0) := by
  have hm : (vState sched vd t).mode = "loop" :=
    (vState_stable sched vd t).1.trans (init_loop sched vd h).1
  have hr : (vState sched vd t).patrol_route = vd.patrol_route :=
    (vState_stable sched vd t).2.1.trans (init_loop sched vd h).2.1
  show pos (advanceVehicle sched (t + 1) (vState sched vd t)) = _
  rw [adv_loop sched (t + 1) _ hm]
  simp [pos, hr, loop_index sched vd h t]

/-! Helper lemmas: the world trajectory and the epoch. -/

lemma worldAt_lt (sched : Schedule) (defs : List VehicleDef) (t : Nat)
    (ht : t < sched.resetTick) :
    worldAt sched defs t = ⟨t, defs.map (fun vd => vState sched vd t)⟩ := by
  induction t with
  | zero =>
    show _reset sched defs = _
    unfold _reset
    rfl
  | succ t ih =>
    have ht' : t < sched.resetTick := Nat.lt_of_succ_lt ht
    show _advance sched defs (worldAt sched defs t) = _
    rw [ih ht']
    unfold _advance
    rw [if_neg (by simp; omega)]
    simp only [List.map_map]
    rfl

lemma worldAt_reset (sched : Schedule) (defs : List VehicleDef)
    (hR : 1 ≤ sched.resetTick) :
    worldAt sched defs sched.resetTick = _reset sched defs := by
  obtain ⟨m, hm⟩ : ∃ m, sched.resetTick = m + 1 := ⟨sched.resetTick - 1, by omega⟩
  rw [hm]
  show _advance sched defs (worldAt sched defs m) = _
  rw [worldAt_lt sched defs m (by omega)]
  unfold _advance
  rw [if_pos (by simp; omega)]

lemma worldAt_period (sched : Schedule) (defs : List VehicleDef)
    (hR : 1 ≤ sched.resetTick) (n : Nat) :
    worldAt sched defs (n + sched.resetTick) = worldAt sched defs n := by
  induction n with
  | zero =>
    simpa using worldAt_reset sched defs hR
  | succ n ih =>
    have : n + 1 + sched.resetTick = (n + sched.resetTick) + 1 := by omega
    rw [this]
    show _advance sched defs (worldAt sched defs (n + sched.resetTick)) = _
    rw [ih]
    rfl

lemma vState_succ (sched : Schedule) (vd : VehicleDef) (t : Nat) :
    vState sched vd (t + 1) = advanceVehicle sched (t + 1) (vState sched vd t) := rfl

/-! Helper lemmas: the `loop_then_intercept_then_hold` trajectory. -/

lemma li_fields (sched : Schedule) (vd : VehicleDef)
    (h : vd.mode = "loop_then_intercept_then_hold") (t : Nat) :
    (vState sched vd t).mode = "loop_then_intercept_then_hold" ∧
    (vState sched vd t).patrol_route = vd.patrol_route ∧
    (vState sched vd t).intercept_route = vd.intercept_route ∧
    (vState sched vd t).hold_position = vd.hold_position := by
  obtain ⟨s1, s2, s3, _, s5, _⟩ := vState_stable sched vd t
  obtain ⟨i1, i2, i3, i4, _, _⟩ := init_li sched vd h
  exact ⟨s1.trans i1, s2.trans i2, s3.trans i3, s5.trans i4⟩

lemma li_patrol_phase (sched : Schedule) (vd : VehicleDef)
    (h : vd.mode = "loop_then_intercept_then_hold") (t : Nat)
    (ht : t < sched.interceptStartTick) :
    (vState sched vd t).phase = "patrol" := by
  induction t with
  | zero => exact (init_li sched vd h).2.2.2.2.2
  | succ t ih =>
    show (advanceVehicle sched (t + 1) (vState sched vd t)).phase = _
    rw [adv_li_patrol sched (t + 1) _ (li_fields sched vd h t).1 ht]

lemma li_intercept_inv (sched : Schedule) (vd : VehicleDef)
    (h : vd.mode = "loop_then_intercept_then_hold")
    (hi : vd.intercept_route ≠ []) (hIS : 1 ≤ sched.interceptStartTick)
    (t : Nat) (h1 : sched.interceptStartTick ≤ t) (h2 : t < sched.captureTick) :
    (vState sched vd t).phase = "intercept" ∧
    (vState sched vd t).route_index =
      min (t - sched.interceptStartTick + 1) (vd.intercept_route.length - 1) ∧
    pos (vState sched vd t) =
      vd.intercept_route.getD
        (min (t - sched.interceptStartTick) (vd.intercept_route.length - 1)) (0, 0) := by
  have hL : 1 ≤ vd.intercept_route.length := List.length_pos.mpr hi
  induction t with
  | zero => omega
  | succ t ih =>
    have hir : (vState sched vd t).intercept_route = vd.intercept_route :=
      (li_fields sched vd h t).2.2.1
    by_cases hc : sched.interceptStartTick ≤ t
    · obtain ⟨ph, ri, _⟩ := ih hc (by omega)
      rw [vState_succ, adv_li_intercept_stay sched (t + 1) _ (li_fields sched vd h t).1
        (by omega) h2 ph]
      refine ⟨by simpa using ph, ?_, ?_⟩
      · simp only [hir, ri]
        split <;> omega
      · have e : min (t - sched.interceptStartTick + 1) (vd.intercept_route.length - 1) =
            min (t + 1 - sched.interceptStartTick) (vd.intercept_route.length - 1) := by
          omega
        simp [pos, hir, ri, e]
    · have hph : (vState sched vd t).phase = "patrol" :=
        li_patrol_phase sched vd h t (by omega)
      rw [vState_succ, adv_li_intercept_enter sched (t + 1) _ (li_fields sched vd h t).1
        (by omega) h2 (by simp [hph])]
      refine ⟨rfl, ?_, ?_⟩
      · simp only [hir]
        split <;> omega
      · have e : min (t + 1 - sched.interceptStartTick) (vd.intercept_route.length - 1) = 0 := by
          omega
        simp [pos, hir, e]

lemma li_hold (sched : Schedule) (vd : VehicleDef)
    (h : vd.mode = "loop_then_intercept_then_hold")
    (hIC : sched.interceptStartTick < sched.captureTick)
    (t : Nat) (ht : sched.captureTick ≤ t) :
    pos (vState sched vd t) = vd.hold_position ∧ (vState sched vd t).phase = "hold" := by
  obtain ⟨m, hm⟩ : ∃ m, t = m + 1 := ⟨t - 1, by omega⟩
  subst hm
  show pos (advanceVehicle sched (m + 1) (vState sched vd m)) = _ ∧
    (advanceVehicle sched (m + 1) (vState sched vd m)).phase = _
  rw [adv_li_hold sched (m + 1) _ (li_fields sched vd h m).1 (by omega) (by omega)]
  exact ⟨by simp [pos, (li_fields sched vd h m).2.2.2], rfl⟩

/-! Helper lemmas: the `spawn_then_route_then_hold` trajectory. -/

/-- The effective spawn tick of a definition:
`vdef.get("spawn_tick", SUSPECT_SPAWN_TICK)`. -/
def spawnOf (sched : Schedule) (vd : VehicleDef) : Nat :=
  vd.spawn_tick.getD sched.suspectSpawnTick

lemma sp_fields (sched : Schedule) (vd : VehicleDef)
    (h : vd.mode = "spawn_then_route_then_hold") (t : Nat) :
    (vState sched vd t).mode = "spawn_then_route_then_hold" ∧
    (vState sched vd t).route = vd.route ∧
    (vState sched vd t).hold_position = vd.hold_position ∧
    (vState sched vd t).spawn_tick = spawnOf sched vd := by
  obtain ⟨s1, _, _, s4, s5, s6⟩ := vState_stable sched vd t
  obtain ⟨i1, i2, i3, i4, _, _, _⟩ := init_sp sched vd h
  exact ⟨s1.trans i1, s4.trans i2, s5.trans i3, s6.trans i4⟩

lemma sp_hidden (sched : Schedule) (vd : VehicleDef)
    (h : vd.mode = "spawn_then_route_then_hold") (t : Nat)
    (ht : t < spawnOf sched vd) :
    (vState sched vd t).visible = false ∧ (vState sched vd t).phase = "hidden" := by
  induction t with
  | zero => exact ⟨(init_sp sched vd h).2.2.2.2.2.2, (init_sp sched vd h).2.2.2.2.2.1⟩
  | succ t ih =>
    show (advanceVehicle sched (t + 1) (vState sched vd t)).visible = _ ∧
      (advanceVehicle sched (t + 1) (vState sched vd t)).phase = _
    rw [adv_sp_hidden sched (t + 1) _ (sp_fields sched vd h t).1
      (by rw [(sp_fields sched vd h t).2.2.2]; omega)]
    exact ⟨rfl, rfl⟩

lemma sp_move_inv (sched : Schedule) (vd : VehicleDef)
    (h : vd.mode = "spawn_then_route_then_hold")
    (hr : vd.route ≠ []) (hS : 1 ≤ spawnOf sched vd)
    (t : Nat) (h1 : spawnOf sched vd ≤ t) (h2 : t < sched.captureTick) :
    (vState sched vd t).visible = true ∧
    (vState sched vd t).phase = "moving" ∧
    (vState sched vd t).route_index =
      min (t - spawnOf sched vd + 1) (vd.route.length - 1) ∧
    pos (vState sched vd t) =
      vd.route.getD (min (t - spawnOf sched vd) (vd.route.length - 1)) (0, 0) := by
  have hL : 1 ≤ vd.route.length := List.length_pos.mpr hr
  induction t with
  | zero => omega
  | succ t ih =>
    have hrt : (vState sched vd t).route = vd.route := (sp_fields sched vd h t).2.1
    have hst : (vState sched vd t).spawn_tick = spawnOf sched vd :=
      (sp_fields sched vd h t).2.2.2
    by_cases hc : spawnOf sched vd ≤ t
    · obtain ⟨_, ph, ri, _⟩ := ih hc (by omega)
      rw [vState_succ, adv_sp_move_stay sched (t + 1) _ (sp_fields sched vd h t).1
        (by rw [hst]; omega) h2 (by simp [ph])]
      refine ⟨rfl, by simpa using ph, ?_, ?_⟩
      · simp only [hrt, ri]
        split <;> omega
      · have e : min (t - spawnOf sched vd + 1) (vd.route.length - 1) =
            min (t + 1 - spawnOf sched vd) (vd.route.length - 1) := by
          omega
        simp [pos, hrt, ri, e]
    · have hph : (vState sched vd t).phase = "hidden" :=
        (sp_hidden sched vd h t (by omega)).2
      rw [vState_succ, adv_sp_move_enter sched (t + 1) _ (sp_fields sched vd h t).1
        (by rw [hst]; omega) h2 hph]
      refine ⟨rfl, rfl, ?_, ?_⟩
      · simp only [hrt]
        split <;> omega
      · have e : min (t + 1 - spawnOf sched vd) (vd.route.length - 1) = 0 := by omega
        simp [pos, hrt, e]

lemma sp_hold (sched : Schedule) (vd : VehicleDef)
    (h : vd.mode = "spawn_then_route_then_hold")
    (hSC : spawnOf sched vd ≤ sched.captureTick) (hC : 1 ≤ sched.captureTick)
    (t : Nat) (ht : sched.captureTick ≤ t) :
    (vState sched vd t).visible = true ∧
    pos (vState sched vd t) = vd.hold_position ∧
    (vState sched vd t).phase = "hold" := by
  obtain ⟨m, hm⟩ : ∃ m, t = m + 1 := ⟨t - 1, by omega⟩
  subst hm
  have hst : (vState sched vd m).spawn_tick = spawnOf sched vd :=
    (sp_fields sched vd h m).2.2.2
  show (advanceVehicle sched (m + 1) (vState sched vd m)).visible = _ ∧
    pos (advanceVehicle sched (m + 1) (vState sched vd m)) = _ ∧
    (advanceVehicle sched (m + 1) (vState sched vd m)).phase = _
  rw [adv_sp_hold sched (m + 1) _ (sp_fields sched vd h m).1
    (by rw [hst]; omega) (by omega)]
  exact ⟨rfl, by simp [pos, (sp_fields sched vd h m).2.2.1], rfl⟩

/-! The cursor-validity invariant (claim C10). -/

/-- Every route a definition's mode will traverse is non-empty. -/
def defRoutesOK (vd : VehicleDef) : Prop :=
  (vd.mode = "loop" → vd.patrol_route ≠ []) ∧
  (vd.mode = "loop_then_intercept_then_hold" →
    vd.patrol_route ≠ [] ∧ vd.intercept_route ≠ []) ∧
  (vd.mode = "spawn_then_route_then_hold" → vd.route ≠ [])

/-- Every route a state's mode will traverse is non-empty (carried along
because `advanceVehicle` never writes the route fields). -/
def routesOK (s : VehicleState) : Prop :=
  (s.mode = "loop" → s.patrol_route ≠ []) ∧
  (s.mode = "loop_then_intercept_then_hold" →
    s.patrol_route ≠ [] ∧ s.intercept_route ≠ []) ∧
  (s.mode = "spawn_then_route_then_hold" → s.route ≠ [])

/-- The route cursor is a valid index into the route the current phase
traverses.  Phases that traverse no route (`hold`, `fixed`) constrain
nothing. -/
def cursorOK (s : VehicleState) : Prop :=
  (s.mode = "loop" → s.route_index < s.patrol_route.length) ∧
  (s.mode = "loop_then_intercept_then_hold" →
    (s.phase = "patrol" → s.route_index < s.patrol_route.length) ∧
    (s.phase = "intercept" → s.route_index < s.intercept_route.length)) ∧
  (s.mode = "spawn_then_route_then_hold" → s.route_index < s.route.length)

/-- The whole-world invariant of claim C10: tick counter inside the
epoch and every vehicle's cursor valid. -/
def worldInv (sched : Schedule) (w : World) : Prop :=
  w.tick < sched.resetTick ∧ ∀ s ∈ w.vehicles, routesOK s ∧ cursorOK s

instance (vd : VehicleDef) : Decidable (defRoutesOK vd) := by
  unfold defRoutesOK
  infer_instance

instance (s : VehicleState) : Decidable (routesOK s) := by
  unfold routesOK
  infer_instance

instance (s : VehicleState) : Decidable (cursorOK s) := by
  unfold cursorOK
  infer_instance

instance (sched : Schedule) (w : World) : Decidable (worldInv sched w) := by
  unfold worldInv
  infer_instance

lemma routesOK_adv (sched : Schedule) (t : Nat) (s : VehicleState) :
    routesOK (advanceVehicle sched t s) ↔ routesOK s := by
  simp [routesOK, adv_mode, adv_patrol_route, adv_intercept_route, adv_route]

lemma init_OK (sched : Schedule) (vd : VehicleDef) (hd : defRoutesOK vd) :
    routesOK (_init_vehicle_state sched vd) ∧ cursorOK (_init_vehicle_state sched vd) := by
  obtain ⟨d1, d2, d3⟩ := hd
  by_cases h1 : vd.mode = "fixed"
  · simp [_init_vehicle_state, routesOK, cursorOK, h1]
  · by_cases h2 : vd.mode = "loop"
    · have := List.length_pos.mpr (d1 h2)
      simp [_init_vehicle_state, routesOK, cursorOK, h1, h2, d1 h2, this]
    · by_cases h3 : vd.mode = "loop_then_intercept_then_hold"
      · have := List.length_pos.mpr (d2 h3).1
        simp [_init_vehicle_state, routesOK, cursorOK, h1, h2, h3, (d2 h3).1, (d2 h3).2, this]
      · by_cases h4 : vd.mode = "spawn_then_route_then_hold"
        · have := List.length_pos.mpr (d3 h4)
          simp [_init_vehicle_state, routesOK, cursorOK, h1, h2, h3, h4, d3 h4, this]
        · simp [_init_vehicle_state, routesOK, cursorOK, h1, h2, h3, h4]

lemma adv_OK (sched : Schedule) (t : Nat) (s : VehicleState)
    (hr : routesOK s) (hc : cursorOK s) :
    routesOK (advanceVehicle sched t s) ∧ cursorOK (advanceVehicle sched t s) := by
  refine ⟨(routesOK_adv sched t s).mpr hr, ?_⟩
  obtain ⟨r1, r2, r3⟩ := hr
  obtain ⟨c1, c2, c3⟩ := hc
  by_cases h1 : s.mode = "fixed"
  · simp [advanceVehicle, cursorOK, h1]
  · by_cases h2 : s.mode = "loop"
    · have hL := List.length_pos.mpr (r1 h2)
      rw [adv_loop sched t s h2]
      simp only [cursorOK]
      refine ⟨fun _ => ?_, ?_, ?_⟩
      · simpa using Nat.mod_lt _ hL
      · intro hcontra
        simp [h2] at hcontra
      · intro hcontra
        simp [h2] at hcontra
    · by_cases h3 : s.mode = "loop_then_intercept_then_hold"
      · have hp := List.length_pos.mpr (r2 h3).1
        have hi := List.length_pos.mpr (r2 h3).2
        by_cases ht1 : t < sched.interceptStartTick
        · rw [adv_li_patrol sched t s h3 ht1]
          simp only [cursorOK]
          refine ⟨?_, fun _ => ⟨fun _ => ?_, ?_⟩, ?_⟩
          · intro hcontra
            simp [h3] at hcontra
          · simpa using Nat.mod_lt _ hp
          · intro hcontra
            simp at hcontra
          · intro hcontra
            simp [h3] at hcontra
        · by_cases ht2 : t < sched.captureTick
          · by_cases hph : s.phase = "intercept"
            · rw [adv_li_intercept_stay sched t s h3 ht1 ht2 hph]
              simp only [cursorOK]
              refine ⟨?_, fun _ => ⟨fun hcontra => ?_, fun _ => ?_⟩, ?_⟩
              · intro hcontra
                simp [h3] at hcontra
              · rw [hph] at hcontra
                simp at hcontra
              · have := c2 h3
                have hidx := this.2 hph
                split <;> omega
              · intro hcontra
                simp [h3] at hcontra
            · rw [adv_li_intercept_enter sched t s h3 ht1 ht2 hph]
              simp only [cursorOK]
              refine ⟨?_, fun _ => ⟨fun hcontra => ?_, fun _ => ?_⟩, ?_⟩
              · intro hcontra
                simp [h3] at hcontra
              · simp at hcontra
              · split <;> omega
              · intro hcontra
                simp [h3] at hcontra
          · rw [adv_li_hold sched t s h3 ht1 ht2]
            simp only [cursorOK]
            refine ⟨?_, fun _ => ⟨fun hcontra => ?_, fun hcontra => ?_⟩, ?_⟩
            · intro hcontra
              simp [h3] at hcontra
            · simp at hcontra
            · simp at hcontra
            · intro hcontra
              simp [h3] at hcontra
      · by_cases h4 : s.mode = "spawn_then_route_then_hold"
        · have hL := List.length_pos.mpr (r3 h4)
          have hidx := c3 h4
          by_cases ht1 : t < s.spawn_tick
          · rw [adv_sp_hidden sched t s h4 ht1]
            simp only [cursorOK]
            exact ⟨fun hcontra => absurd (h4 ▸ hcontra) (by simp),
              fun hcontra => absurd (h4 ▸ hcontra) (by simp), fun _ => hidx⟩
          · by_cases ht2 : t < sched.captureTick
            · by_cases hph : s.phase = "hidden"
              · rw [adv_sp_move_enter sched t s h4 ht1 ht2 hph]
                simp only [cursorOK]
                refine ⟨fun hcontra => absurd (h4 ▸ hcontra) (by simp),
                  fun hcontra => absurd (h4 ▸ hcontra) (by simp), fun _ => ?_⟩
                split <;> omega
              · rw [adv_sp_move_stay sched t s h4 ht1 ht2 hph]
                simp only [cursorOK]
                refine ⟨fun hcontra => absurd (h4 ▸ hcontra) (by simp),
                  fun hcontra => absurd (h4 ▸ hcontra) (by simp), fun _ => ?_⟩
                split <;> omega
            · rw [adv_sp_hold sched t s h4 ht1 ht2]
              simp only [cursorOK]
              exact ⟨fun hcontra => absurd (h4 ▸ hcontra) (by simp),
                fun hcontra => absurd (h4 ▸ hcontra) (by simp), fun _ => hidx⟩
        · have : advanceVehicle sched t s = s := by
            simp [advanceVehicle, h1, h2, h3, h4]
          rw [this]
          exact ⟨c1, c2, c3⟩

lemma worldInv_reset (sched : Schedule) (defs : List VehicleDef)
    (hR : 1 ≤ sched.resetTick) (hdefs : ∀ vd ∈ defs, defRoutesOK vd) :
    worldInv sched (_reset sched defs) := by
  refine ⟨by simpa [_reset] using hR, ?_⟩
  intro s hs
  simp only [_reset, List.mem_map] at hs
  obtain ⟨vd, hvd, rfl⟩ := hs
  exact init_OK sched vd (hdefs vd hvd)

lemma worldInv_adv (sched : Schedule) (defs : List VehicleDef)
    (hR : 1 ≤ sched.resetTick) (hdefs : ∀ vd ∈ defs, defRoutesOK vd)
    (w : World) (hw : worldInv sched w) :
    worldInv sched (_advance sched defs w) := by
  unfold _advance
  dsimp only
  split
  · exact worldInv_reset sched defs hR hdefs
  · rename_i hlt
    refine ⟨by simpa using Nat.lt_of_not_le (fun hx => hlt (by simpa using hx)), ?_⟩
    intro s hs
    simp only [List.mem_map] at hs
    obtain ⟨s0, hs0, rfl⟩ := hs
    exact adv_OK sched (w.tick + 1) s0 (hw.2 s0 hs0).1 (hw.2 s0 hs0).2

lemma worldInv_at (sched : Schedule) (defs : List VehicleDef)
    (hR : 1 ≤ sched.resetTick) (hdefs : ∀ vd ∈ defs, defRoutesOK vd)
    (n : Nat) : worldInv sched (worldAt sched defs n) := by
  induction n with
  | zero => exact worldInv_reset sched defs hR hdefs
  | succ n ih => exact worldInv_adv sched defs hR hdefs _ ih

lemma worldAt_period_mul (sched : Schedule) (defs : List VehicleDef)
    (hR : 1 ≤ sched.resetTick) (k t : Nat) :
    worldAt sched defs (k * sched.resetTick + t) = worldAt sched defs t := by
  induction k with
  | zero => simp
  | succ k ih =>
    have e : (k + 1) * sched.resetTick + t = (k * sched.resetTick + t) + sched.resetTick := by
      ring
    rw [e, worldAt_period sched defs hR, ih]

/-! Concrete fixtures: the shipped schedule (tick 800 ms, markers
40/90/130/240) and small vehicles of each mode, used by the witness and
counterexample theorems. -/

/-- The shipped schedule: spawn 40, intercept start 90, capture 130,
reset 240. -/
def exSched : Schedule := ⟨40, 90, 130, 240⟩

def exFixed : VehicleDef :=
  { id := "f1", vtype := "barrier", mode := "fixed", hold_position := (5, 6) }

def exLoop : VehicleDef :=
  { id := "p1", vtype := "patrol", mode := "loop",
    patrol_route := [(10, 20), (30, 40), (50, 60)] }

def exPatrol : VehicleDef :=
  { id := "p2", vtype := "patrol", mode := "loop_then_intercept_then_hold",
    patrol_route := [(1, 1), (2, 2)],
    intercept_route := [(7, 7), (8, 8), (9, 9)],
    hold_position := (99, 99) }

def exSuspect : VehicleDef :=
  { id := "s1", vtype := "suspect", mode := "spawn_then_route_then_hold",
    route := [(100, 0), (101, 0), (102, 0)],
    hold_position := (55, 55), spawn_tick := some 40 }

def exDefs : List VehicleDef := [exFixed, exLoop, exPatrol, exSuspect]

/-- A world sitting one period before the reset marker, vehicles in
their construction-time state. -/
def resetPeriodWorld : World :=
  { tick := 239, vehicles := (_reset exSched exDefs).vehicles }

/-! ### C5 — the epoch replays identically forever -/

/-- C5: when the tick counter reaches the reset marker, the whole world
(tick counter and every entity) is restored exactly to its
construction-time state, so the world repeats with period `resetTick`;
in particular the advance step right after a reset produces the same
world as the advance step at tick 1 of the previous epoch. -/
theorem C5_epoch_replay (sched : Schedule) (defs : List VehicleDef)
    (hR : 1 ≤ sched.resetTick) :
    worldAt sched defs sched.resetTick = _reset sched defs ∧
    (∀ n, worldAt sched defs (n + sched.resetTick) = worldAt sched defs n) ∧
    worldAt sched defs (sched.resetTick + 1) = worldAt sched defs 1 := by
  refine ⟨worldAt_reset sched defs hR, worldAt_period sched defs hR, ?_⟩
  have e : sched.resetTick + 1 = 1 + sched.resetTick := by omega
  rw [e, worldAt_period sched defs hR]

/-- C5 witness at the shipped schedule and vehicles. -/
theorem C5_epoch_replay_witness :
    1 ≤ exSched.resetTick ∧
    (worldAt exSched exDefs exSched.resetTick = _reset exSched exDefs ∧
     (∀ n, worldAt exSched exDefs (n + exSched.resetTick) = worldAt exSched exDefs n) ∧
     worldAt exSched exDefs (exSched.resetTick + 1) = worldAt exSched exDefs 1) :=
  ⟨by decide, C5_epoch_replay exSched exDefs (by decide)⟩

/-! ### C6 — broadcast fan-out isolation -/

/-- C6: a broadcast pass attempts delivery to every registered handle;
the registry afterwards is exactly the handles whose delivery
succeeded, so a failing handle is removed while every other handle
still receives the snapshot and stays registered.  (In the source the
failing handles are collected in `dead` during the iteration and
removed only by the `difference_update` after the loop; the pass itself
is a total function, so no delivery failure escapes it.) -/
theorem C6_broadcast_isolation (sendOk : Nat → Bool) (clients : Finset Nat) (ws : Nat)
    (hmem : ws ∈ clients) :
    (broadcastPass sendOk clients).2 = clients.filter (fun x => sendOk x) ∧
    (sendOk ws = true →
      ws ∈ (broadcastPass sendOk clients).1 ∧ ws ∈ (broadcastPass sendOk clients).2) ∧
    (sendOk ws = false → ws ∉ (broadcastPass sendOk clients).2) := by
  have hset : (broadcastPass sendOk clients).2 = clients.filter (fun x => sendOk x) := by
    unfold broadcastPass
    ext a
    simp only [Finset.mem_sdiff, Finset.mem_filter]
    constructor
    · rintro ⟨ha, hdead⟩
      refine ⟨ha, ?_⟩
      by_contra hno
      exact hdead ⟨ha, by simpa using hno⟩
    · rintro ⟨ha, hok⟩
      exact ⟨ha, fun hdead => by simp [hok] at hdead⟩
  refine ⟨hset, fun hok => ⟨?_, ?_⟩, fun hfail => ?_⟩
  · unfold broadcastPass
    simpa [Finset.mem_filter] using ⟨hmem, hok⟩
  · rw [hset]
    simpa [Finset.mem_filter] using ⟨hmem, hok⟩
  · rw [hset]
    simp [Finset.mem_filter, hfail]

/-- C6 witness: three subscribers, the middle one failing; the theorem
applied to a surviving handle. -/
theorem C6_broadcast_isolation_witness :
    (0 : Nat) ∈ ({0, 1, 2} : Finset Nat) ∧
    ((broadcastPass (fun n => n != 1) {0, 1, 2}).2 =
        ({0, 1, 2} : Finset Nat).filter (fun x => (fun n => n != 1) x) ∧
     ((fun n => n != 1) 0 = true →
       (0 : Nat) ∈ (broadcastPass (fun n => n != 1) {0, 1, 2}).1 ∧
       (0 : Nat) ∈ (broadcastPass (fun n => n != 1) {0, 1, 2}).2) ∧
     ((fun n => n != 1) 0 = false →
       (0 : Nat) ∉ (broadcastPass (fun n => n != 1) {0, 1, 2}).2)) :=
  ⟨by decide, C6_broadcast_isolation (fun n => n != 1) {0, 1, 2} 0 (by decide)⟩

/-! ### C9 — registry idempotence -/

/-- C9: registering the same handle twice equals registering it once,
and unregistering an absent handle leaves the registry unchanged. -/
theorem C9_registry_idempotent (clients : Finset Nat) (ws : Nat) :
    register_ws (register_ws clients ws) ws = register_ws clients ws ∧
    (ws ∉ clients → unregister_ws clients ws = clients) := by
  exact ⟨Finset.insert_idem ws clients, fun h => Finset.erase_eq_of_not_mem h⟩

/-- C9 witness: unregistering the absent handle 5 from `{1, 2}`. -/
theorem C9_registry_idempotent_witness :
    (5 : Nat) ∉ ({1, 2} : Finset Nat) ∧ unregister_ws {1, 2} 5 = {1, 2} :=
  ⟨by decide, (C9_registry_idempotent {1, 2} 5).2 (by decide)⟩

/-! ### C10 — tick range and cursor validity invariant -/

/-- C10: provided every configured route is non-empty, the invariant
"tick < reset marker and every vehicle's cursor is a valid index into
its currently active route" holds after initialization, is preserved by
every advance step, and therefore holds at every reachable world. -/
theorem C10_cursor_invariant (sched : Schedule) (defs : List VehicleDef)
    (hR : 1 ≤ sched.resetTick) (hdefs : ∀ vd ∈ defs, defRoutesOK vd) :
    worldInv sched (_reset sched defs) ∧
    (∀ w, worldInv sched w → worldInv sched (_advance sched defs w)) ∧
    (∀ n, worldInv sched (worldAt sched defs n)) :=
  ⟨worldInv_reset sched defs hR hdefs,
   fun w hw => worldInv_adv sched defs hR hdefs w hw,
   worldInv_at sched defs hR hdefs⟩

/-- C10 witness at the shipped schedule and vehicles. -/
theorem C10_cursor_invariant_witness :
    (1 ≤ exSched.resetTick ∧ ∀ vd ∈ exDefs, defRoutesOK vd) ∧
    (worldInv exSched (_reset exSched exDefs) ∧
     (∀ w, worldInv exSched w → worldInv exSched (_advance exSched exDefs w)) ∧
     (∀ n, worldInv exSched (worldAt exSched exDefs n))) :=
  ⟨⟨by decide, by decide⟩,
   C10_cursor_invariant exSched exDefs (by decide) (by decide)⟩

/-! ### C1 — what the loop does on the reset period -/

/-- C1 counterexample: on the period in which the incremented tick
reaches the reset marker, a snapshot IS built (from the freshly reset
world, tick 0) and IS delivered to the registered subscriber, contrary
to the claim that no snapshot is built or broadcast for that period. -/
theorem C1_counterexample :
    resetPeriodWorld.tick + 1 = exSched.resetTick ∧
    (loopIteration exSched exDefs (fun _ => true) resetPeriodWorld {7}).delivered =
      ({7} : Finset Nat) ∧
    (loopIteration exSched exDefs (fun _ => true) resetPeriodWorld {7}).delivered ≠
      (∅ : Finset Nat) ∧
    (loopIteration exSched exDefs (fun _ => true) resetPeriodWorld {7}).payload =
      _build_payload (_reset exSched exDefs) := by
  decide

/-- C1 amended: on a period in which the incremented tick counter has
reached the reset marker, the step reinitializes every entity to its
construction-time state and resets the tick counter to zero, and no
entity advance is performed; however the snapshot of the freshly reset
world (tick 0) is still built and broadcast to the subscribers in that
same period. -/
theorem C1_reset_period (sched : Schedule) (defs : List VehicleDef)
    (sendOk : Nat → Bool) (w : World) (clients : Finset Nat)
    (h : sched.resetTick ≤ w.tick + 1) :
    (loopIteration sched defs sendOk w clients).world = _reset sched defs ∧
    (loopIteration sched defs sendOk w clients).payload =
      _build_payload (_reset sched defs) ∧
    (loopIteration sched defs sendOk w clients).payload.tick = 0 ∧
    (loopIteration sched defs sendOk w clients).delivered =
      clients.filter (fun ws => sendOk ws) := by
  have hadv : _advance sched defs w = _reset sched defs := by
    unfold _advance
    dsimp only
    rw [if_pos (by omega)]
  refine ⟨hadv, ?_, ?_, rfl⟩
  · show _build_payload (_advance sched defs w) = _
    rw [hadv]
  · show (_build_payload (_advance sched defs w)).tick = 0
    rw [hadv]
    rfl

/-- C1 witness at the shipped schedule and vehicles. -/
theorem C1_reset_period_witness :
    exSched.resetTick ≤ resetPeriodWorld.tick + 1 ∧
    ((loopIteration exSched exDefs (fun _ => true) resetPeriodWorld {7}).world =
        _reset exSched exDefs ∧
     (loopIteration exSched exDefs (fun _ => true) resetPeriodWorld {7}).payload =
        _build_payload (_reset exSched exDefs) ∧
     (loopIteration exSched exDefs (fun _ => true) resetPeriodWorld {7}).payload.tick = 0 ∧
     (loopIteration exSched exDefs (fun _ => true) resetPeriodWorld {7}).delivered =
        ({7} : Finset Nat).filter (fun ws => (fun _ => true) ws)) :=
  ⟨by decide,
   C1_reset_period exSched exDefs (fun _ => true) resetPeriodWorld {7} (by decide)⟩

/-! ### C2 — position of a loop vehicle -/

/-- C2 counterexample: the loop vehicle's coordinate at tick 1 is
`route[0]`, not `route[1 mod L]`: `_advance` copies `route[route_index]`
into the position BEFORE incrementing the cursor, so tick t ≥ 1 shows
`route[(t-1) mod L]`. -/
theorem C2_counterexample :
    (worldAt exSched [exLoop] 1).vehicles.map pos = [(10, 20)] ∧
    exLoop.patrol_route.getD (1 % exLoop.patrol_route.length) (0, 0) = (30, 40) ∧
    ((10, 20) : Int × Int) ≠ (30, 40) := by
  decide

/-- C2 amended: for a loop vehicle with route of length L, the stored
cursor at tick t is `t mod L`; the coordinate is `route[0]` at tick 0
and `route[(t - 1) mod L]` at every tick t ≥ 1 (stated as tick `t + 1`
showing `route[t mod L]`), within any epoch and across arbitrarily many
epochs (the world at tick `k·reset + t` equals the world at tick `t`,
and within an epoch the world's vehicles are exactly the per-vehicle
trajectories). -/
theorem C2_loop_position (sched : Schedule) (defs : List VehicleDef) (vd : VehicleDef)
    (hR : 1 ≤ sched.resetTick) (hm : vd.mode = "loop") (hr : vd.patrol_route ≠ [])
    (k t : Nat) :
    worldAt sched defs (k * sched.resetTick + t) = worldAt sched defs t ∧
    (t < sched.resetTick →
      (worldAt sched defs t).vehicles = defs.map (fun d => vState sched d t)) ∧
    (vState sched vd t).route_index = t % vd.patrol_route.length ∧
    pos (vState sched vd (t + 1)) =
      vd.patrol_route.getD (t % vd.patrol_route.length) (0, 0) ∧
    pos (vState sched vd 0) = vd.patrol_route.getD 0 (0, 0) := by
  refine ⟨worldAt_period_mul sched defs hR k t, ?_, loop_index sched vd hm t,
    loop_pos_succ sched vd hm t, (init_loop sched vd hm).2.2.2.2⟩
  intro ht
  rw [worldAt_lt sched defs t ht]

/-- C2 amended witness at the shipped schedule, epoch 2, tick 5. -/
theorem C2_loop_position_witness :
    (1 ≤ exSched.resetTick ∧ exLoop.mode = "loop" ∧ exLoop.patrol_route ≠ []) ∧
    (worldAt exSched exDefs (2 * exSched.resetTick + 5) = worldAt exSched exDefs 5 ∧
     (5 < exSched.resetTick →
       (worldAt exSched exDefs 5).vehicles = exDefs.map (fun d => vState exSched d 5)) ∧
     (vState exSched exLoop 5).route_index = 5 % exLoop.patrol_route.length ∧
     pos (vState exSched exLoop (5 + 1)) =
       exLoop.patrol_route.getD (5 % exLoop.patrol_route.length) (0, 0) ∧
     pos (vState exSched exLoop 0) = exLoop.patrol_route.getD 0 (0, 0)) :=
  ⟨⟨by decide, by decide, by decide⟩,
   C2_loop_position exSched exDefs exLoop (by decide) (by decide) (by decide) 2 5⟩

/-! ### C3 — the patrol/intercept/hold timeline -/

/-- C3: for a patrol/intercept/hold vehicle with non-empty routes, at
tick = intercept-start the phase becomes `intercept` and the vehicle
occupies intercept-route index 0 (the cursor was reset); for every tick
t with intercept-start ≤ t < capture the phase is `intercept` and the
vehicle occupies intercept-route at index
`min(t − intercept-start, len − 1)` (clamped, not wrapped); for every
tick t with capture ≤ t < reset the coordinate is the hold point and
the phase is `hold`. -/
theorem C3_intercept_schedule (sched : Schedule) (vd : VehicleDef)
    (hm : vd.mode = "loop_then_intercept_then_hold")
    (hp : vd.patrol_route ≠ []) (hi : vd.intercept_route ≠ [])
    (hIS : 1 ≤ sched.interceptStartTick)
    (hIC : sched.interceptStartTick < sched.captureTick) :
    ((vState sched vd sched.interceptStartTick).phase = "intercept" ∧
      pos (vState sched vd sched.interceptStartTick) =
        vd.intercept_route.getD 0 (0, 0)) ∧
    (∀ t, sched.interceptStartTick ≤ t → t < sched.captureTick →
      (vState sched vd t).phase = "intercept" ∧
      pos (vState sched vd t) =
        vd.intercept_route.getD
          (min (t - sched.interceptStartTick) (vd.intercept_route.length - 1)) (0, 0)) ∧
    (∀ t, sched.captureTick ≤ t → t < sched.resetTick →
      pos (vState sched vd t) = vd.hold_position ∧
      (vState sched vd t).phase = "hold") := by
  refine ⟨?_, ?_, ?_⟩
  · obtain ⟨ph, _, hpos⟩ :=
      li_intercept_inv sched vd hm hi hIS sched.interceptStartTick (le_refl _) hIC
    have e : min (sched.interceptStartTick - sched.interceptStartTick)
        (vd.intercept_route.length - 1) = 0 := by omega
    rw [e] at hpos
    exact ⟨ph, hpos⟩
  · intro t h1 h2
    obtain ⟨ph, _, hpos⟩ := li_intercept_inv sched vd hm hi hIS t h1 h2
    exact ⟨ph, hpos⟩
  · intro t h1 _
    exact li_hold sched vd hm hIC t h1

/-- C3 witness at the shipped schedule, applied to the example patrol
vehicle. -/
theorem C3_intercept_schedule_witness :
    (exPatrol.mode = "loop_then_intercept_then_hold" ∧
     exPatrol.patrol_route ≠ [] ∧ exPatrol.intercept_route ≠ [] ∧
     1 ≤ exSched.interceptStartTick ∧
     exSched.interceptStartTick < exSched.captureTick) ∧
    (((vState exSched exPatrol exSched.interceptStartTick).phase = "intercept" ∧
      pos (vState exSched exPatrol exSched.interceptStartTick) =
        exPatrol.intercept_route.getD 0 (0, 0)) ∧
     (∀ t, exSched.interceptStartTick ≤ t → t < exSched.captureTick →
       (vState exSched exPatrol t).phase = "intercept" ∧
       pos (vState exSched exPatrol t) =
         exPatrol.intercept_route.getD
           (min (t - exSched.interceptStartTick)
             (exPatrol.intercept_route.length - 1)) (0, 0)) ∧
     (∀ t, exSched.captureTick ≤ t → t < exSched.resetTick →
       pos (vState exSched exPatrol t) = exPatrol.hold_position ∧
       (vState exSched exPatrol t).phase = "hold")) :=
  ⟨⟨by decide, by decide, by decide, by decide, by decide⟩,
   C3_intercept_schedule exSched exPatrol (by decide) (by decide) (by decide)
     (by decide) (by decide)⟩

/-! ### C4 — the spawn/route/hold timeline -/

/-- C4: for a spawn/route/hold vehicle with spawn tick S and a
non-empty route, the visibility flag is false and the phase `hidden`
for every tick t < S; at tick S the vehicle becomes visible with phase
`moving` occupying route index 0; for S ≤ t < capture it is visible,
`moving`, and occupies route index `min(t − S, len − 1)` (clamped); for
capture ≤ t < reset it is visible at its hold point with phase
`hold`. -/
theorem C4_spawn_schedule (sched : Schedule) (vd : VehicleDef)
    (hm : vd.mode = "spawn_then_route_then_hold") (hr : vd.route ≠ [])
    (hS : 1 ≤ spawnOf sched vd) (hSC : spawnOf sched vd < sched.captureTick) :
    (∀ t, t < spawnOf sched vd →
      (vState sched vd t).visible = false ∧ (vState sched vd t).phase = "hidden") ∧
    ((vState sched vd (spawnOf sched vd)).visible = true ∧
     (vState sched vd (spawnOf sched vd)).phase = "moving" ∧
     pos (vState sched vd (spawnOf sched vd)) = vd.route.getD 0 (0, 0)) ∧
    (∀ t, spawnOf sched vd ≤ t → t < sched.captureTick →
      (vState sched vd t).visible = true ∧
      (vState sched vd t).phase = "moving" ∧
      pos (vState sched vd t) =
        vd.route.getD (min (t - spawnOf sched vd) (vd.route.length - 1)) (0, 0)) ∧
    (∀ t, sched.captureTick ≤ t → t < sched.resetTick →
      (vState sched vd t).visible = true ∧
      pos (vState sched vd t) = vd.hold_position ∧
      (vState sched vd t).phase = "hold") := by
  refine ⟨fun t ht => sp_hidden sched vd hm t ht, ?_, ?_, ?_⟩
  · obtain ⟨hv, ph, _, hpos⟩ :=
      sp_move_inv sched vd hm hr hS (spawnOf sched vd) (le_refl _) hSC
    have e : min (spawnOf sched vd - spawnOf sched vd) (vd.route.length - 1) = 0 := by
      omega
    rw [e] at hpos
    exact ⟨hv, ph, hpos⟩
  · intro t h1 h2
    obtain ⟨hv, ph, _, hpos⟩ := sp_move_inv sched vd hm hr hS t h1 h2
    exact ⟨hv, ph, hpos⟩
  · intro t h1 _
    exact sp_hold sched vd hm (by omega) (by omega) t h1

/-- C4 witness at the shipped schedule, applied to the example suspect
vehicle (spawn tick 40). -/
theorem C4_spawn_schedule_witness :
    (exSuspect.mode = "spawn_then_route_then_hold" ∧ exSuspect.route ≠ [] ∧
     1 ≤ spawnOf exSched exSuspect ∧
     spawnOf exSched exSuspect < exSched.captureTick) ∧
    ((∀ t, t < spawnOf exSched exSuspect →
       (vState exSched exSuspect t).visible = false ∧
       (vState exSched exSuspect t).phase = "hidden") ∧
     ((vState exSched exSuspect (spawnOf exSched exSuspect)).visible = true ∧
      (vState exSched exSuspect (spawnOf exSched exSuspect)).phase = "moving" ∧
      pos (vState exSched exSuspect (spawnOf exSched exSuspect)) =
        exSuspect.route.getD 0 (0, 0)) ∧
     (∀ t, spawnOf exSched exSuspect ≤ t → t < exSched.captureTick →
       (vState exSched exSuspect t).visible = true ∧
       (vState exSched exSuspect t).phase = "moving" ∧
       pos (vState exSched exSuspect t) =
         exSuspect.route.getD
           (min (t - spawnOf exSched exSuspect) (exSuspect.route.length - 1)) (0, 0)) ∧
     (∀ t, exSched.captureTick ≤ t → t < exSched.resetTick →
       (vState exSched exSuspect t).visible = true ∧
       pos (vState exSched exSuspect t) = exSuspect.hold_position ∧
       (vState exSched exSuspect t).phase = "hold")) :=
  ⟨⟨by decide, by decide, by decide, by decide⟩,
   C4_spawn_schedule exSched exSuspect (by decide) (by decide) (by decide) (by decide)⟩

/-! ### C7 — status label resolution -/

/-- C7 counterexample: the default labels are the Spanish strings of
the source, not the English names the claim gives: a patrol-phase state
with no overrides is labelled `"patrullando"`, not `"patrolling"`. -/
theorem C7_counterexample :
    _status_label (_init_vehicle_state exSched exLoop) = "patrullando" ∧
    _status_label (_init_vehicle_state exSched exLoop) ≠ "patrolling" := by
  decide

/-- C7 amended: the emitted status label is the custom phase→label
override entry when one exists for the current phase; otherwise the
fixed default mapping patrol→"patrullando", intercept→"acudiendo",
hidden→"oculto", moving→"en_movimiento", and for phase hold
"bloqueando" when the entity's `type` is `"patrol"` and "neutralizado"
otherwise; any phase outside the mapping falls back to the raw phase
name. -/
theorem C7_status_label (s : VehicleState) :
    (∀ v, s.state_labels.lookup s.phase = some v → _status_label s = v) ∧
    (s.state_labels.lookup s.phase = none →
      (s.phase = "patrol" → _status_label s = "patrullando") ∧
      (s.phase = "intercept" → _status_label s = "acudiendo") ∧
      (s.phase = "hidden" → _status_label s = "oculto") ∧
      (s.phase = "moving" → _status_label s = "en_movimiento") ∧
      (s.phase = "hold" → s.vtype = "patrol" → _status_label s = "bloqueando") ∧
      (s.phase = "hold" → s.vtype ≠ "patrol" → _status_label s = "neutralizado") ∧
      (s.phase ≠ "patrol" → s.phase ≠ "intercept" → s.phase ≠ "hold" →
        s.phase ≠ "hidden" → s.phase ≠ "moving" → s.phase ≠ "detenido" →
        _status_label s = s.phase)) := by
  constructor
  · intro v hv
    simp [_status_label, hv]
  · intro hnone
    refine ⟨?_, ?_, ?_, ?_, ?_, ?_, ?_⟩
    · intro h1
      rw [h1] at hnone
      simp [_status_label, h1, hnone, List.lookup]
    · intro h1
      rw [h1] at hnone
      simp [_status_label, h1, hnone, List.lookup]
    · intro h1
      rw [h1] at hnone
      simp [_status_label, h1, hnone, List.lookup]
    · intro h1
      rw [h1] at hnone
      simp [_status_label, h1, hnone, List.lookup]
    · intro h1 h2
      rw [h1] at hnone
      simp [_status_label, h1, h2, hnone, List.lookup]
    · intro h1 h2
      rw [h1] at hnone
      simp [_status_label, h1, h2, hnone, List.lookup]
    · intro h1 h2 h3 h4 h5 h6
      have e1 : (s.phase == "patrol") = false := beq_eq_false_iff_ne.mpr h1
      have e2 : (s.phase == "intercept") = false := beq_eq_false_iff_ne.mpr h2
      have e3 : (s.phase == "hold") = false := beq_eq_false_iff_ne.mpr h3
      have e4 : (s.phase == "hidden") = false := beq_eq_false_iff_ne.mpr h4
      have e5 : (s.phase == "moving") = false := beq_eq_false_iff_ne.mpr h5
      have e6 : (s.phase == "detenido") = false := beq_eq_false_iff_ne.mpr h6
      simp [_status_label, hnone, List.lookup, e1, e2, e3, e4, e5, e6]

/-- C7 amended witness: the default label of a patrol-phase state with
no overrides. -/
theorem C7_status_label_witness :
    _status_label (_init_vehicle_state exSched exLoop) = "patrullando" :=
  ((C7_status_label (_init_vehicle_state exSched exLoop)).2 (by decide)).1 (by decide)

/-! ### C8 — the snapshot builder is a pure projection of visible vehicles -/

/-- C8: the snapshot carries the current global tick; every vehicle
whose visibility flag is true appears (projected to its observable
fields), every emitted entry comes from a visible vehicle (so no
invisible vehicle is ever included), and the polling accessor is the
same pure function — the world value is not modified (the builder is a
function of the world, with no failure mode). -/
theorem C8_build_payload (w : World) :
    (_build_payload w).tick = w.tick ∧
    (∀ s ∈ w.vehicles, s.visible = true → viewOf s ∈ (_build_payload w).vehicles) ∧
    (∀ v ∈ (_build_payload w).vehicles,
      ∃ s, s ∈ w.vehicles ∧ s.visible = true ∧ v = viewOf s) ∧
    get_current_state w = _build_payload w := by
  refine ⟨rfl, ?_, ?_, rfl⟩
  · intro s hs hv
    exact List.mem_map_of_mem viewOf (List.mem_filter.mpr ⟨hs, hv⟩)
  · intro v hv
    have hm : v ∈ (w.vehicles.filter (fun s => s.visible)).map viewOf := hv
    rw [List.mem_map] at hm
    obtain ⟨s, hs, rfl⟩ := hm
    rw [List.mem_filter] at hs
    exact ⟨s, hs.1, hs.2, rfl⟩

/-- C8 witness: in the freshly reset shipped world the (visible) fixed
vehicle is emitted while the (invisible) suspect is not. -/
theorem C8_build_payload_witness :
    (_init_vehicle_state exSched exFixed) ∈ (_reset exSched exDefs).vehicles ∧
    (_init_vehicle_state exSched exFixed).visible = true ∧
    viewOf (_init_vehicle_state exSched exFixed) ∈
      (_build_payload (_reset exSched exDefs)).vehicles :=
  ⟨by decide, by decide,
   (C8_build_payload (_reset exSched exDefs)).2.1 (_init_vehicle_state exSched exFixed)
     (by decide) (by decide)⟩

end Vita360
